import Mathlib

/-!
The mr2 command line front end (`cli/mr2/main.go`).

A shallow embedding of the two command actions of `main.go` (the `server` and the
`client` command), of the flag declarations they read, of the standard
library function `strconv.FormatInt` they use to build addresses, and of the way
package `net` reads such an address when it listens on it or dials it.

The calls the actions make into the `mr2` package, the `net/http` package and the
Go runtime (`go` statements) are recorded as a list of events, in program order.
-/

namespace Mr2

/-! ## `strconv.FormatInt` -/

/-- The digit alphabet of `strconv` (`const digits`). -/
def digits : List Char := "0123456789abcdefghijklmnopqrstuvwxyz".toList

/-- The general-case loop of `strconv.formatBits`: while `u >= b`, emit `digits[u%b]` in front of
what was written so far and divide `u` by `b`; then emit `digits[u]`. `fuel` bounds the number of
iterations; `u` itself is always enough, since `u / b < u` whenever `2 ≤ b ≤ u`. -/
def formatBits : Nat → Nat → Nat → List Char → List Char
  | 0, u, _, a => digits.getD u '0' :: a
  | fuel + 1, u, b, a =>
    if u ≥ b then formatBits fuel (u / b) b (digits.getD (u % b) '0' :: a)
    else digits.getD u '0' :: a

/-- Go: `strconv.FormatInt(i, base)`: the digits of the magnitude of `i`, with a leading `-` when
`i` is negative. -/
def FormatInt (i : Int) (base : Nat) : String :=
  let body := formatBits i.natAbs i.natAbs base []
  String.mk (if i < 0 then '-' :: body else body)

/-- Value of a decimal digit character, when it is one. -/
def digitValue (c : Char) : Option Nat :=
  if '0' ≤ c ∧ c ≤ '9' then some (c.toNat - '0'.toNat) else none

/-- Reads a list of decimal digits, most significant first, on top of the value `acc` read so
far; fails on any other character. -/
def readDecimal : List Char → Nat → Option Nat
  | [], acc => some acc
  | c :: cs, acc =>
    match digitValue c with
    | some d => readDecimal cs (acc * 10 + d)
    | none => none

/-- Parses an unsigned decimal numeral: at least one character, decimal digits only. -/
def parseDecimal (s : String) : Option Nat :=
  match s.data with
  | [] => none
  | cs => readDecimal cs 0

/-- A canonical decimal numeral: non-empty, decimal digits only, and no leading zero unless the
numeral is the single digit `0`. -/
def isCanonicalDecimal (s : String) : Bool :=
  match s.data with
  | [] => false
  | c :: cs => (c :: cs).all (fun x => (digitValue x).isSome) && (c != '0' || cs.isEmpty)

/-! ## Flags and contexts (`github.com/urfave/cli`) -/

/-- A parsed flag value; the constructor is the kind of the flag that holds it. -/
inductive FlagValue
  | bool (b : Bool)
  | string (s : String)
  | int64 (i : Int)
  | stringSlice (l : List String)
  deriving DecidableEq

/-- A flag declaration (`cli.BoolFlag`, `cli.StringFlag`, `cli.Int64Flag`, `cli.StringSliceFlag`):
`Value` carries the kind of the flag together with its default, which is Go's zero value when the
declaration has no `Value:` field. -/
structure Flag where
  Name : String
  Aliases : List String
  Usage : String
  Value : FlagValue
  deriving DecidableEq

/-- The `Flags` of the `server` command. -/
def serverFlags : List Flag :=
  [ { Name := "listen", Aliases := ["l"], Usage := "Listen address, like: 1.2.3.4:5",
      Value := .string "" },
    { Name := "password", Aliases := ["p"], Usage := "Password", Value := .string "" },
    { Name := "portPassword", Aliases := ["P"],
      Usage := "Only allow this port and password, like '1000 password'. If you specify this parameter, --password will be ignored",
      Value := .stringSlice [] } ]

/-- The `Flags` of the `client` command. -/
def clientFlags : List Flag :=
  [ { Name := "server", Aliases := ["s"], Usage := "Server address, like: 1.2.3.4:5",
      Value := .string "" },
    { Name := "password", Aliases := ["p"], Usage := "Password", Value := .string "" },
    { Name := "serverPort", Aliases := ["P"],
      Usage := "Server port you want to use. When server run as port mode", Value := .int64 0 },
    { Name := "serverDomain", Aliases := ["D"],
      Usage := "Server subdomain you want to use. When server run as domain mode. Only support official server now.",
      Value := .string "" },
    { Name := "clientServer, c", Aliases := ["c"], Usage := "Client server address, like: 1.2.3.4:5",
      Value := .string "" },
    { Name := "clientDirectory", Aliases := [],
      Usage := "Client directory, like: /path/to/www. If you specify this parameter, --clientServer will be ignored",
      Value := .string "" },
    { Name := "clientPort", Aliases := [], Usage := "Work with --clientDirectory",
      Value := .int64 54321 },
    { Name := "tcpTimeout", Aliases := [],
      Usage := "connection tcp keepalive timeout (s), works with --serverPort", Value := .int64 60 },
    { Name := "tcpDeadline", Aliases := [],
      Usage := "connection deadline time (s), works with --serverPort", Value := .int64 0 },
    { Name := "udpDeadline", Aliases := [],
      Usage := "connection deadline time (s), works with --serverPort", Value := .int64 60 } ]

/-- A `*cli.Context` as a command action sees it: the flags the command declares, and the values
given on the command line, keyed by the name the action reads them under. -/
structure Context where
  flags : List Flag
  given : List (String × FlagValue)

namespace Context

/-- The value a flag name resolves to: the one given on the command line, else the default of
the declaration of that name, else nothing. -/
def lookup (c : Context) (name : String) : Option FlagValue :=
  match c.given.lookup name with
  | some v => some v
  | none => (c.flags.find? (fun f => f.Name == name)).map (fun f => f.Value)

/-- The context in which the flag `name` is given the value `v` on the command line, every other
flag being as in `c`. -/
def set (c : Context) (name : String) (v : FlagValue) : Context :=
  { c with given := (name, v) :: c.given }

/-- Go: `c.Int64(name)`; zero when there is no int64 flag of that name. An `int64` is an integer
in the range from `-2^63` to `2^63 - 1`; nothing below does arithmetic on it. -/
def Int64 (c : Context) (name : String) : Int :=
  match c.lookup name with
  | some (.int64 i) => i
  | _ => 0

/-- Go: `c.StringSlice(name)`; nil when there is no string slice flag of that name. -/
def StringSlice (c : Context) (name : String) : List String :=
  match c.lookup name with
  | some (.stringSlice l) => l
  | _ => []

/-- Go: `c.String(name)`; the empty string when there is no string flag of that name. -/
def String (c : Context) (name : String) : String :=
  match c.lookup name with
  | some (.string s) => s
  | _ => ""

end Context

/-! ## The `mr2` package and the events of an action -/

/-- The operations of package `github.com/txthinking/mr2` that `main.go` calls. `NewServer` returns
either a server or a non-nil error; `ListenAndServe` returns an `error`, `none` standing for nil. -/
structure Package (Server Client Err : Type) where
  NewServer : String → String → List String → Except Err Server
  ServerListenAndServe : Server → Option Err
  NewClient : String → String → Int → String → String → Int → Int → Int → Client
  ClientListenAndServe : Client → Option Err

/-- What an action does, in program order. The arguments of a call are positional, in the order
of the call in `main.go`. A `Go…` event is a `go` statement starting the goroutine described. -/
inductive Event (Server Client : Type)
  /-- Go: `cli.ShowCommandHelp(c, command)` -/
  | ShowCommandHelp (command : String)
  /-- Go: `go func() { log.Println(http.ListenAndServe(debugListen, nil)) }()` -/
  | GoDebugListenAndServe (addr : String)
  /-- Go: `mr2.NewServer(addr, password, portPassword)` -/
  | NewServer (addr : String) (password : String) (portPassword : List String)
  /-- Go: `go func() { ...; <-sigs; s.Shutdown() }()` in the server command -/
  | GoServerShutdownOnSignal (s : Server)
  /-- Go: `s.ListenAndServe()` in the server command -/
  | ServerListenAndServe (s : Server)
  /-- Go: `go func() { log.Println(http.ListenAndServe(addr, http.FileServer(http.Dir(dir)))) }()` -/
  | GoFileServerListenAndServe (addr : String) (dir : String)
  /-- Go: `mr2.NewClient(...)` with its eight arguments -/
  | NewClient (server : String) (password : String) (serverPort : Int) (serverDomain : String)
      (clientServer : String) (tcpTimeout : Int) (tcpDeadline : Int) (udpDeadline : Int)
  /-- Go: `go func() { ...; <-sigs; s.Shutdown() }()` in the client command -/
  | GoClientShutdownOnSignal (s : Client)
  /-- Go: `s.ListenAndServe()` in the client command -/
  | ClientListenAndServe (s : Client)
  deriving DecidableEq

namespace Event

variable {Server Client : Type}

/-- Is the event a call of `mr2.NewServer`? -/
def isNewServer : Event Server Client → Bool
  | .NewServer _ _ _ => true
  | _ => false

/-- Is the event a call of `mr2.NewClient`? -/
def isNewClient : Event Server Client → Bool
  | .NewClient _ _ _ _ _ _ _ _ => true
  | _ => false

/-- Is the event a call of `ListenAndServe` on a server or a client of the `mr2` package? -/
def isListenAndServe : Event Server Client → Bool
  | .ServerListenAndServe _ => true
  | .ClientListenAndServe _ => true
  | _ => false

/-- Does the event start the goroutine that calls `Shutdown` once a signal arrives? That goroutine
is the only place where `Shutdown` is called. -/
def installsShutdown : Event Server Client → Bool
  | .GoServerShutdownOnSignal _ => true
  | .GoClientShutdownOnSignal _ => true
  | _ => false

/-- Does the event start the debug HTTP endpoint? -/
def isDebugEndpoint : Event Server Client → Bool
  | .GoDebugListenAndServe _ => true
  | _ => false

/-- Does the event show the command help? -/
def isShowCommandHelp : Event Server Client → Bool
  | .ShowCommandHelp _ => true
  | _ => false

end Event

/-- The package-level variables `debug` and `debugListen`, filled from the application flags. -/
structure Globals where
  debug : Bool
  debugListen : String

/-! ## The command actions -/

section Actions

variable {Server Client Err : Type}

/-- The `Action` of the `server` command: the events it performs and the `error` it returns. -/
def serverAction (pkg : Package Server Client Err) (g : Globals) (c : Context) :
    List (Event Server Client) × Option Err :=
  if c.String "listen" = "" then
    ([.ShowCommandHelp "server"], none)
  else
    let dbg : List (Event Server Client) :=
      if g.debug then [.GoDebugListenAndServe g.debugListen] else []
    let call : Event Server Client :=
      .NewServer (c.String "listen") (c.String "password") (c.StringSlice "portPassword")
    match pkg.NewServer (c.String "listen") (c.String "password") (c.StringSlice "portPassword") with
    | .error err => (dbg ++ [call], some err)
    | .ok s =>
      (dbg ++ [call, .GoServerShutdownOnSignal s, .ServerListenAndServe s],
        pkg.ServerListenAndServe s)

/-- The `Action` of the `client` command: the events it performs and the `error` it returns. -/
def clientAction (pkg : Package Server Client Err) (c : Context) :
    List (Event Server Client) × Option Err :=
  let cs₀ := c.String "clientServer"
  let dir : List (Event Server Client) :=
    if c.String "clientDirectory" ≠ "" then
      [.GoFileServerListenAndServe (":" ++ FormatInt (c.Int64 "clientPort") 10)
        (c.String "clientDirectory")]
    else []
  let cs :=
    if c.String "clientDirectory" ≠ "" then "localhost:" ++ FormatInt (c.Int64 "clientPort") 10
    else cs₀
  let s := pkg.NewClient (c.String "server") (c.String "password") (c.Int64 "serverPort")
    (c.String "serverDomain") cs (c.Int64 "tcpTimeout") (c.Int64 "tcpDeadline")
    (c.Int64 "udpDeadline")
  (dir ++
    [.NewClient (c.String "server") (c.String "password") (c.Int64 "serverPort")
        (c.String "serverDomain") cs (c.Int64 "tcpTimeout") (c.Int64 "tcpDeadline")
        (c.Int64 "udpDeadline"),
      .GoClientShutdownOnSignal s, .ClientListenAndServe s],
    pkg.ClientListenAndServe s)

end Actions

/-- A package whose servers and clients are the argument lists they were built from; `NewServer`
fails on an address without a colon, `ListenAndServe` fails on an empty password. -/
def samplePackage : Package (String × String × List String) (String × Int × String) String where
  NewServer := fun addr pw pp =>
    if addr.data.contains ':' then .ok (addr, pw, pp) else .error ("missing port in address " ++ addr)
  ServerListenAndServe := fun s => if s.2.1 = "" then some "closed" else none
  NewClient := fun server _ port _ cs _ _ _ => (server, port, cs)
  ClientListenAndServe := fun s => if s.1 = "" then some "no server" else none

/-- The forwarding address of a `NewClient` call: its fifth argument. -/
def Event.forwardingAddress {Server Client : Type} : Event Server Client → Option String
  | .NewClient _ _ _ _ clientServer _ _ _ => some clientServer
  | _ => none

/-- The address the static file server is asked to listen on. -/
def Event.fileServerAddress {Server Client : Type} : Event Server Client → Option String
  | .GoFileServerListenAndServe addr _ => some addr
  | _ => none

/-- For a `NewClient` call: does exactly one of `serverPort` non-zero and `serverDomain` non-empty
hold among its arguments? Every other event passes. -/
def Event.exactlyOneBindingMode {Server Client : Type} : Event Server Client → Bool
  | .NewClient _ _ serverPort serverDomain _ _ _ _ => xor (serverPort != 0) (serverDomain != "")
  | _ => true

/-- A client command line serving a directory: `--clientDirectory /www --clientPort 8080
--clientServer 1.2.3.4:5 --serverPort 9000`. -/
def sampleDirectoryContext : Context :=
  { flags := clientFlags,
    given := [("clientDirectory", .string "/www"), ("clientPort", .int64 8080),
      ("clientServer", .string "1.2.3.4:5"), ("serverPort", .int64 9000)] }

/-- A client command line forwarding to an address: `--server 5.6.7.8:9 --password pw
--serverPort 9000 --clientServer 127.0.0.1:80 --tcpDeadline 3600`. -/
def sampleForwardContext : Context :=
  { flags := clientFlags,
    given := [("server", .string "5.6.7.8:9"), ("password", .string "pw"),
      ("serverPort", .int64 9000), ("clientServer", .string "127.0.0.1:80"),
      ("tcpDeadline", .int64 3600)] }

/-- A client command line with both binding modes: `--serverPort 9000 --serverDomain www`. -/
def sampleBothModesContext : Context :=
  { flags := clientFlags,
    given := [("serverPort", .int64 9000), ("serverDomain", .string "www")] }

/-- A server command line: `--listen :9999 --password pw --portPassword "1000 a"
--portPassword "2000 b" --portPassword "1000 a"`. -/
def sampleServerContext : Context :=
  { flags := serverFlags,
    given := [("listen", .string ":9999"), ("password", .string "pw"),
      ("portPassword", .stringSlice ["1000 a", "2000 b", "1000 a"])] }

/-- A server command line whose listen address `NewServer` of `samplePackage` rejects:
`--listen 9999`. -/
def sampleBadServerContext : Context :=
  { flags := serverFlags, given := [("listen", .string "9999")] }

/-! ## Addresses (`net`) -/

/-- Splits a list of characters at its last colon, when it has one. -/
def splitLastColon : List Char → Option (List Char × List Char)
  | [] => none
  | c :: cs =>
    match splitLastColon cs with
    | some (host, port) => some (c :: host, port)
    | none => if c = ':' then some ([], cs) else none

/-- Go: `net.SplitHostPort(hostport)`: host and port are the parts before and after the last
colon; a missing colon or a colon left in the host is an error. Hosts in brackets (IPv6 literals)
are left out: the actions build no such address. -/
def splitHostPort (hostport : String) : Option (String × String) :=
  match splitLastColon hostport.data with
  | some (host, port) => if host.contains ':' then none else some (String.mk host, String.mk port)
  | none => none

/-- Go: `net.parsePort(service)` for a numeric service: an optional sign followed by decimal
digits, the empty string meaning port 0. A text that is not numeric is looked up as a service
name by Go; that lookup is left out here and such a text has no port. Go clamps magnitudes from
`2^30` on, all of them beyond the valid ports, so the value below is unclamped. -/
def parsePort (service : String) : Option Int :=
  match service.data with
  | [] => some 0
  | c :: cs =>
    if c = '+' then (readDecimal cs 0).map Int.ofNat
    else if c = '-' then (readDecimal cs 0).map (fun n => - Int.ofNat n)
    else (readDecimal (c :: cs) 0).map Int.ofNat

/-- A TCP endpoint: the host as written in the address (empty for every interface) and the
port. -/
structure Endpoint where
  host : String
  port : Nat
  deriving DecidableEq

/-- The endpoint a listener on `addr` is bound to (`http.ListenAndServe`, `net.Listen`), if the
address is valid: a port outside 0..65535 is an error, and for port 0 the system picks the port,
`ephemeral`. -/
def listenEndpoint (addr : String) (ephemeral : Nat) : Option Endpoint :=
  match splitHostPort addr with
  | some (host, service) =>
    match parsePort service with
    | some p =>
      if p < 0 ∨ 65535 < p then none
      else if p = 0 then some { host := host, port := ephemeral }
      else some { host := host, port := p.toNat }
    | none => none
  | none => none

/-- The endpoint a dial of `addr` is directed to (`net.Dial`), if there is one: a port outside
0..65535 is an error, and no listener is ever bound to port 0, so a dial of it is refused. -/
def dialEndpoint (addr : String) : Option Endpoint :=
  match splitHostPort addr with
  | some (host, service) =>
    match parsePort service with
    | some p => if p < 1 ∨ 65535 < p then none else some { host := host, port := p.toNat }
    | none => none
  | none => none

/-- Does a dial directed to `d` reach the listener bound to `l`? The ports agree, and the
listener is bound to every interface or to the host dialled. -/
def reaches (d l : Endpoint) : Bool :=
  d.port == l.port && (l.host == "" || l.host == d.host)

/-- Is the forwarding address of the action's `NewClient` call a loopback address that reaches
the static file server the action starts, `ephemeral` being the port the system would pick for
a listener on port 0? -/
def forwardsToFileServer {Server Client : Type} (events : List (Event Server Client))
    (ephemeral : Nat) : Bool :=
  events.any fun e =>
    match e.fileServerAddress with
    | some la =>
      events.any fun f =>
        match f.forwardingAddress with
        | some fa =>
          match listenEndpoint la ephemeral, dialEndpoint fa with
          | some l, some d => d.host == "localhost" && reaches d l
          | _, _ => false
        | none => false
    | none => false

/-- A client command line serving a directory on port 0: `--clientDirectory /www
--clientPort 0`. -/
def samplePortZeroContext : Context :=
  { flags := clientFlags,
    given := [("clientDirectory", .string "/www"), ("clientPort", .int64 0)] }

/-- A client command line serving a directory on a negative port: `--clientDirectory /www
--clientPort -1`. -/
def sampleNegativePortContext : Context :=
  { flags := clientFlags,
    given := [("clientDirectory", .string "/www"), ("clientPort", .int64 (-1))] }

/-- A client command line serving a directory on a port beyond 65535: `--clientDirectory /www
--clientPort 65536`. -/
def sampleLargePortContext : Context :=
  { flags := clientFlags,
    given := [("clientDirectory", .string "/www"), ("clientPort", .int64 65536)] }

/-! ## The Port/Password Authority -/

/-- Modelled from the spec: a `PortPasswordEntry` (section 3), one `"port password"` pair of the
server's allow-list; the package that parses and stores them is not part of `cli/mr2/main.go`. -/
structure PortPasswordEntry where
  port : Int
  password : String
  deriving DecidableEq

/-- Modelled from the spec: the state of the Port/Password Authority (sections 3, 4.1 and 5): the
server-wide single password, the configured allow-list, and the binding table, the ports
currently bound to an active ControlSession. The authority's code is not part of
`cli/mr2/main.go`. -/
structure Authority where
  password : String
  entries : List PortPasswordEntry
  bound : List Int
  deriving DecidableEq

/-- Modelled from the spec: the credential rule of section 4.1, whose code is not part of
`cli/mr2/main.go`. With an allow-list configured, the requested port must exactly match an entry
and the supplied password must match that entry's password; with none, the supplied password must
equal the single configured server password. -/
def Authority.credentialsOk (a : Authority) (requestedPort : Int) (suppliedPassword : String) :
    Bool :=
  if a.entries.isEmpty then suppliedPassword == a.password
  else a.entries.any (fun e => e.port == requestedPort && e.password == suppliedPassword)

/-- Modelled from the spec: `Authorize(requestedPort, suppliedPassword) -> (grantedPort, ok)` of
section 4.1, whose code is not part of `cli/mr2/main.go`. Access is granted when the credentials
pass and the port is not already bound to an active ControlSession (successful authorization is
exclusive); granting records the binding, denial leaves the authority unchanged. -/
def Authorize (a : Authority) (requestedPort : Int) (suppliedPassword : String) :
    Option Int × Authority :=
  if a.credentialsOk requestedPort suppliedPassword && !a.bound.contains requestedPort then
    (some requestedPort, { a with bound := requestedPort :: a.bound })
  else
    (none, a)

/-- Modelled from the spec: what reaches the authority during a server run (sections 4.1, 4.2 and
8): an `AUTH` request, or the close of the ControlSession that holds a port. The authority's code
is not part of `cli/mr2/main.go`. -/
inductive AuthorityRequest
  | auth (requestedPort : Int) (suppliedPassword : String)
  | close (port : Int)
  deriving DecidableEq

/-- Modelled from the spec: one step of a server run at the authority (sections 4.1 and 8), whose
code is not part of `cli/mr2/main.go`: an `AUTH` request is answered by `Authorize`, a close
releases the port. The result is the granted port, if the step granted one. -/
def Authority.step (a : Authority) : AuthorityRequest → Option Int × Authority
  | .auth p w => Authorize a p w
  | .close p => (none, { a with bound := a.bound.erase p })

/-- Modelled from the spec: a server run at the authority, whose code is not part of
`cli/mr2/main.go`: the answers to a sequence of requests, in order. -/
def Authority.run (a : Authority) : List AuthorityRequest → List (Option Int)
  | [] => []
  | r :: rs => (a.step r).1 :: Authority.run (a.step r).2 rs

/-- Modelled from the spec: the authority a server starts with, given the `password` and the
allow-list handed to `NewServer` (sections 3 and 6): nothing is bound yet. The package's code is
not part of `cli/mr2/main.go`. -/
def Authority.start (password : String) (entries : List PortPasswordEntry) : Authority :=
  { password := password, entries := entries, bound := [] }

/-- Modelled from the spec: the scenario of section 8, a server configured with
`portPassword = ["8080 secret"]` and nothing bound yet. The authority's code is not part of
`cli/mr2/main.go`. -/
def scenarioAuthority : Authority :=
  Authority.start "" [{ port := 8080, password := "secret" }]

/-! ## Decimal numerals written by `FormatInt` -/

theorem digitValue_digits (d : Nat) (h : d < 10) : digitValue (digits.getD d '0') = some d := by
  interval_cases d <;> decide

theorem digits_ne_zero (d : Nat) (h0 : 0 < d) (h : d < 10) : digits.getD d '0' ≠ '0' := by
  interval_cases d <;> decide

theorem readDecimal_formatBits (fuel : Nat) :
    ∀ (u : Nat) (a : List Char), u ≤ fuel →
      readDecimal (formatBits fuel u 10 a) 0 = readDecimal a u := by
  induction fuel with
  | zero =>
    intro u a h
    obtain rfl : u = 0 := by omega
    simp only [formatBits, readDecimal, digitValue_digits 0 (by decide), Nat.zero_mul, Nat.zero_add]
  | succ fuel ih =>
    intro u a h
    unfold formatBits
    split
    · rename_i hu
      rw [ih (u / 10) _ (by omega)]
      simp only [readDecimal, digitValue_digits (u % 10) (Nat.mod_lt _ (by decide))]
      congr 1
      omega
    · rename_i hu
      simp only [readDecimal, digitValue_digits u (by omega), Nat.zero_mul, Nat.zero_add]

theorem formatBits_all_digits (fuel : Nat) :
    ∀ (u : Nat) (a : List Char), u ≤ fuel →
      a.all (fun x => (digitValue x).isSome) = true →
      (formatBits fuel u 10 a).all (fun x => (digitValue x).isSome) = true := by
  induction fuel with
  | zero =>
    intro u a h ha
    obtain rfl : u = 0 := by omega
    simp only [formatBits, List.all_cons, ha, digitValue_digits 0 (by decide)]
    rfl
  | succ fuel ih =>
    intro u a h ha
    unfold formatBits
    split
    · apply ih _ _ (by omega)
      simp only [List.all_cons, ha, digitValue_digits (u % 10) (Nat.mod_lt _ (by decide))]
      rfl
    · simp only [List.all_cons, ha, digitValue_digits u (by omega)]
      rfl

theorem formatBits_head (fuel : Nat) :
    ∀ (u : Nat) (a : List Char), 0 < u → u ≤ fuel →
      ∃ d rest, 0 < d ∧ d < 10 ∧ formatBits fuel u 10 a = digits.getD d '0' :: rest := by
  induction fuel with
  | zero => intro u a h0 h; omega
  | succ fuel ih =>
    intro u a h0 h
    unfold formatBits
    split
    · exact ih _ _ (Nat.div_pos (by assumption) (by decide)) (by omega)
    · exact ⟨u, a, h0, by omega, rfl⟩

/-- For a positive integer, `FormatInt` in base 10 writes a canonical decimal numeral that
parses back to the integer. -/
theorem FormatInt_canonical (n : Int) (h : 0 < n) :
    isCanonicalDecimal (FormatInt n 10) = true ∧
      parseDecimal (FormatInt n 10) = some n.toNat := by
  have hn : ¬ n < 0 := by omega
  have hpos : 0 < n.natAbs := by omega
  obtain ⟨d, rest, hd0, hd, hfb⟩ := formatBits_head n.natAbs n.natAbs [] hpos (le_refl _)
  have hall := formatBits_all_digits n.natAbs n.natAbs [] (le_refl _) (by simp)
  have hread := readDecimal_formatBits n.natAbs n.natAbs [] (le_refl _)
  have hne := digits_ne_zero d hd0 hd
  have hnat : n.toNat = n.natAbs := by omega
  simp only [FormatInt, hn, if_false, isCanonicalDecimal, parseDecimal]
  rw [hfb] at hall hread ⊢
  refine ⟨?_, ?_⟩
  · simp only [hall, Bool.true_and, Bool.or_eq_true, bne_iff_ne, ne_eq]
    exact Or.inl hne
  · show readDecimal (digits.getD d '0' :: rest) 0 = some n.toNat
    rw [hread, hnat]
    rfl

/-! ## Addresses built from `FormatInt` -/

theorem splitLastColon_of_all_digits (t : List Char)
    (h : t.all (fun x => (digitValue x).isSome) = true) :
    splitLastColon t = none ∧ t.contains ':' = false := by
  induction t with
  | nil => exact ⟨rfl, rfl⟩
  | cons c cs ih =>
    simp only [List.all_cons, Bool.and_eq_true] at h
    obtain ⟨ih1, ih2⟩ := ih h.2
    have hc : c ≠ ':' := by
      intro hc
      rw [hc] at h
      exact absurd h.1 (by decide)
    have hc2 : (':' == c) = false := by
      simp only [beq_eq_false_iff_ne, ne_eq]
      exact fun e => hc e.symm
    refine ⟨?_, ?_⟩
    · simp only [splitLastColon, ih1, hc, if_false]
    · simp only [List.contains, List.elem, hc2] at ih2 ⊢
      exact ih2

theorem splitLastColon_append (host t : List Char) (h : splitLastColon t = none) :
    splitLastColon (host ++ ':' :: t) = some (host, t) := by
  induction host with
  | nil => simp [splitLastColon, h]
  | cons c cs ih => simp [splitLastColon, ih]

theorem FormatInt_data (n : Int) (h : 0 < n) :
    ∃ d rest, 0 < d ∧ d < 10 ∧ (FormatInt n 10).data = digits.getD d '0' :: rest ∧
      (digits.getD d '0' :: rest).all (fun x => (digitValue x).isSome) = true ∧
      readDecimal (digits.getD d '0' :: rest) 0 = some n.toNat := by
  have hn : ¬ n < 0 := by omega
  have hpos : 0 < n.natAbs := by omega
  obtain ⟨d, rest, hd0, hd, hfb⟩ := formatBits_head n.natAbs n.natAbs [] hpos (le_refl _)
  have hall := formatBits_all_digits n.natAbs n.natAbs [] (le_refl _) (by simp)
  have hread := readDecimal_formatBits n.natAbs n.natAbs [] (le_refl _)
  have hnat : n.toNat = n.natAbs := by omega
  rw [hfb] at hall hread
  refine ⟨d, rest, hd0, hd, ?_, hall, ?_⟩
  · simp only [FormatInt, hn, if_false, hfb]
  · rw [hread, hnat]; rfl

theorem digits_not_sign (d : Nat) (h : d < 10) :
    digits.getD d '0' ≠ '+' ∧ digits.getD d '0' ≠ '-' := by
  interval_cases d <;> decide

theorem parsePort_FormatInt (n : Int) (h : 0 < n) : parsePort (FormatInt n 10) = some n := by
  obtain ⟨d, rest, _, hd, hdata, _, hread⟩ := FormatInt_data n h
  obtain ⟨h1, h2⟩ := digits_not_sign d hd
  simp only [parsePort, hdata, h1, h2, if_false, hread, Option.map_some', Int.ofNat_eq_coe]
  congr 1
  exact Int.toNat_of_nonneg (by omega)

theorem splitHostPort_FormatInt (host : String) (n : Int) (h : 0 < n)
    (hh : host.data.contains ':' = false) :
    splitHostPort (host ++ ":" ++ FormatInt n 10) = some (host, FormatInt n 10) := by
  obtain ⟨d, rest, _, _, hdata, hall, _⟩ := FormatInt_data n h
  have hsplit := (splitLastColon_of_all_digits _ hall).1
  have e : (host ++ ":" ++ FormatInt n 10).data = host.data ++ ':' :: (FormatInt n 10).data := by
    simp [String.data_append]
  simp only [splitHostPort, e, hdata, splitLastColon_append _ _ hsplit, hh, Bool.false_eq_true,
    if_false]
  rw [← hdata]

theorem listenEndpoint_FormatInt (n : Int) (h1 : 1 ≤ n) (h2 : n ≤ 65535) (ephemeral : Nat) :
    listenEndpoint (":" ++ FormatInt n 10) ephemeral = some { host := "", port := n.toNat } := by
  have hs := splitHostPort_FormatInt "" n (by omega) rfl
  have e : "" ++ ":" ++ FormatInt n 10 = ":" ++ FormatInt n 10 := by
    apply String.ext; simp [String.data_append]
  rw [e] at hs
  have c1 : ¬ (n < 0 ∨ 65535 < n) := by omega
  have c2 : ¬ n = 0 := by omega
  simp only [listenEndpoint, hs, parsePort_FormatInt n (by omega), c1, c2, if_false]

theorem dialEndpoint_FormatInt (n : Int) (h1 : 1 ≤ n) (h2 : n ≤ 65535) :
    dialEndpoint ("localhost:" ++ FormatInt n 10)
      = some { host := "localhost", port := n.toNat } := by
  have hs := splitHostPort_FormatInt "localhost" n (by omega) (by decide)
  have e : "localhost" ++ ":" ++ FormatInt n 10 = "localhost:" ++ FormatInt n 10 := by
    apply String.ext; simp [String.data_append]
  rw [e] at hs
  have c1 : ¬ (n < 1 ∨ 65535 < n) := by omega
  simp only [dialEndpoint, hs, parsePort_FormatInt n (by omega), c1, if_false]

/-! ## The client command -/

theorem String_set_of_ne (c : Context) (n m : String) (v : FlagValue) (h : (m == n) = false) :
    (c.set n v).String m = c.String m := by
  simp [Context.set, Context.String, Context.lookup, List.lookup, h]

theorem Int64_set_of_ne (c : Context) (n m : String) (v : FlagValue) (h : (m == n) = false) :
    (c.set n v).Int64 m = c.Int64 m := by
  simp [Context.set, Context.Int64, Context.lookup, List.lookup, h]

/-- C1: in the client command, when `clientDirectory` is non-empty, `NewClient` is called once and
its fifth argument, the forwarding address, is `"localhost:"` followed by the base-10 rendering
of `clientPort`; this holds for the context as it is and for every value given to the
`clientServer` flag, so `clientServer` is ignored. -/
theorem clientAction_directory_forwardingAddress {Server Client Err : Type}
    (pkg : Package Server Client Err) (c : Context) (v : FlagValue)
    (h : c.String "clientDirectory" ≠ "") :
    (clientAction pkg c).1.filterMap Event.forwardingAddress
        = ["localhost:" ++ FormatInt (c.Int64 "clientPort") 10] ∧
      (clientAction pkg (c.set "clientServer" v)).1.filterMap Event.forwardingAddress
        = ["localhost:" ++ FormatInt (c.Int64 "clientPort") 10] := by
  have h1 : (c.set "clientServer" v).String "clientDirectory" = c.String "clientDirectory" :=
    String_set_of_ne c _ _ v (by decide)
  have h2 : (c.set "clientServer" v).Int64 "clientPort" = c.Int64 "clientPort" :=
    Int64_set_of_ne c _ _ v (by decide)
  constructor
  · simp [clientAction, h, Event.forwardingAddress, List.filterMap_append, List.filterMap_cons]
  · simp [clientAction, h, h1, h2, Event.forwardingAddress, List.filterMap_append,
      List.filterMap_cons]

theorem clientAction_directory_forwardingAddress_witness :
    sampleDirectoryContext.String "clientDirectory" ≠ "" ∧
      ((clientAction samplePackage sampleDirectoryContext).1.filterMap Event.forwardingAddress
          = ["localhost:" ++ FormatInt (sampleDirectoryContext.Int64 "clientPort") 10] ∧
        (clientAction samplePackage
            (sampleDirectoryContext.set "clientServer" (.string "9.9.9.9:9"))).1.filterMap
            Event.forwardingAddress
          = ["localhost:" ++ FormatInt (sampleDirectoryContext.Int64 "clientPort") 10]) :=
  ⟨by decide,
    clientAction_directory_forwardingAddress samplePackage sampleDirectoryContext
      (.string "9.9.9.9:9") (by decide)⟩

/-- C2 (amended): in the client command with a non-empty `clientDirectory`, for every
`clientPort` the static file server is started once, on `":"` followed by the port text and for
that directory, and `NewClient` is called once with the forwarding address `"localhost:"`
followed by the same port text, the base-10 rendering of `clientPort`; for `clientPort` in
1..65535 that text is a canonical decimal numeral which parses back to `clientPort`, the file
server listens on port `clientPort` of every interface and the forwarding address is port
`clientPort` of `localhost`, so the forwarding target is the loopback endpoint serving that
directory. -/
theorem clientAction_directory_loopback_endpoint {Server Client Err : Type}
    (pkg : Package Server Client Err) (c : Context) (h : c.String "clientDirectory" ≠ "") :
    (clientAction pkg c).1.filterMap Event.fileServerAddress
        = [":" ++ FormatInt (c.Int64 "clientPort") 10] ∧
      Event.GoFileServerListenAndServe (":" ++ FormatInt (c.Int64 "clientPort") 10)
        (c.String "clientDirectory") ∈ (clientAction pkg c).1 ∧
      (clientAction pkg c).1.filterMap Event.forwardingAddress
        = ["localhost:" ++ FormatInt (c.Int64 "clientPort") 10] ∧
      (1 ≤ c.Int64 "clientPort" → c.Int64 "clientPort" ≤ 65535 →
        isCanonicalDecimal (FormatInt (c.Int64 "clientPort") 10) = true ∧
          (parseDecimal (FormatInt (c.Int64 "clientPort") 10)).map Int.ofNat
            = some (c.Int64 "clientPort") ∧
          (∀ ephemeral,
            listenEndpoint (":" ++ FormatInt (c.Int64 "clientPort") 10) ephemeral
                = some { host := "", port := (c.Int64 "clientPort").toNat } ∧
              forwardsToFileServer (clientAction pkg c).1 ephemeral = true) ∧
          dialEndpoint ("localhost:" ++ FormatInt (c.Int64 "clientPort") 10)
            = some { host := "localhost", port := (c.Int64 "clientPort").toNat }) := by
  refine ⟨?_, ?_, ?_, ?_⟩
  · simp [clientAction, h, Event.fileServerAddress, List.filterMap_append, List.filterMap_cons]
  · simp [clientAction, h]
  · simp [clientAction, h, Event.forwardingAddress, List.filterMap_append, List.filterMap_cons]
  · intro h1 h2
    obtain ⟨hc, hp⟩ := FormatInt_canonical (c.Int64 "clientPort") (by omega)
    have hd := dialEndpoint_FormatInt (c.Int64 "clientPort") h1 h2
    refine ⟨hc, ?_, ?_, hd⟩
    · rw [hp]
      simp only [Option.map_some', Int.ofNat_eq_coe]
      congr 1
      exact Int.toNat_of_nonneg (by omega)
    · intro ephemeral
      have hl := listenEndpoint_FormatInt (c.Int64 "clientPort") h1 h2 ephemeral
      refine ⟨hl, ?_⟩
      simp [clientAction, h, forwardsToFileServer, Event.fileServerAddress,
        Event.forwardingAddress, hl, hd, reaches]

theorem clientAction_directory_loopback_endpoint_witness :
    sampleDirectoryContext.String "clientDirectory" ≠ "" ∧
      (1 ≤ sampleDirectoryContext.Int64 "clientPort" ∧
        sampleDirectoryContext.Int64 "clientPort" ≤ 65535) ∧
      (clientAction samplePackage sampleDirectoryContext).1.filterMap Event.fileServerAddress
        = [":" ++ FormatInt (sampleDirectoryContext.Int64 "clientPort") 10] ∧
      (clientAction samplePackage sampleDirectoryContext).1.filterMap Event.forwardingAddress
        = ["localhost:" ++ FormatInt (sampleDirectoryContext.Int64 "clientPort") 10] ∧
      isCanonicalDecimal (FormatInt (sampleDirectoryContext.Int64 "clientPort") 10) = true ∧
      (parseDecimal (FormatInt (sampleDirectoryContext.Int64 "clientPort") 10)).map Int.ofNat
        = some (sampleDirectoryContext.Int64 "clientPort") ∧
      forwardsToFileServer (clientAction samplePackage sampleDirectoryContext).1 40000 = true ∧
      dialEndpoint ("localhost:" ++ FormatInt (sampleDirectoryContext.Int64 "clientPort") 10)
        = some { host := "localhost", port := (sampleDirectoryContext.Int64 "clientPort").toNat } :=
  have t := clientAction_directory_loopback_endpoint samplePackage sampleDirectoryContext
    (by decide)
  have r := t.2.2.2 (by decide) (by decide)
  ⟨by decide, by decide, t.1, t.2.2.1, r.1, r.2.1, (r.2.2.1 40000).2, r.2.2.2⟩

/-- C2 fails as stated: with `--clientDirectory /www --clientPort 0` the file server is asked to
listen on `":0"`, where the system picks the port, while the forwarding address is
`"localhost:0"`, which no dial reaches; with `--clientPort -1` and `--clientPort 65536` the listen
address is invalid and `NewClient` is still handed `"localhost:-1"` and `"localhost:65536"`. In
none of the three runs is the forwarding target the endpoint serving the directory. -/
theorem clientAction_directory_port_not_served :
    (samplePortZeroContext.String "clientDirectory" ≠ "" ∧
        (clientAction samplePackage samplePortZeroContext).1.filterMap Event.fileServerAddress
          = [":0"] ∧
        (clientAction samplePackage samplePortZeroContext).1.filterMap Event.forwardingAddress
          = ["localhost:0"] ∧
        listenEndpoint ":0" 40000 = some { host := "", port := 40000 } ∧
        dialEndpoint "localhost:0" = none ∧
        forwardsToFileServer (clientAction samplePackage samplePortZeroContext).1 40000
          = false) ∧
      (sampleNegativePortContext.String "clientDirectory" ≠ "" ∧
        (clientAction samplePackage sampleNegativePortContext).1.filterMap
          Event.fileServerAddress = [":-1"] ∧
        (clientAction samplePackage sampleNegativePortContext).1.filterMap
          Event.forwardingAddress = ["localhost:-1"] ∧
        listenEndpoint ":-1" 40000 = none ∧
        forwardsToFileServer (clientAction samplePackage sampleNegativePortContext).1 40000
          = false) ∧
      (sampleLargePortContext.String "clientDirectory" ≠ "" ∧
        (clientAction samplePackage sampleLargePortContext).1.filterMap
          Event.fileServerAddress = [":65536"] ∧
        (clientAction samplePackage sampleLargePortContext).1.filterMap
          Event.forwardingAddress = ["localhost:65536"] ∧
        listenEndpoint ":65536" 40000 = none ∧
        forwardsToFileServer (clientAction samplePackage sampleLargePortContext).1 40000
          = false) := by
  decide

/-- C3: in the client command with an empty `clientDirectory`, `NewClient` is called exactly once,
with the values of the flags `server`, `password`, `serverPort`, `serverDomain`, `clientServer`,
`tcpTimeout`, `tcpDeadline` and `udpDeadline`, in that order and unchanged. -/
theorem clientAction_no_directory_newClient {Server Client Err : Type}
    (pkg : Package Server Client Err) (c : Context) (h : c.String "clientDirectory" = "") :
    (clientAction pkg c).1.filter Event.isNewClient =
      [.NewClient (c.String "server") (c.String "password") (c.Int64 "serverPort")
        (c.String "serverDomain") (c.String "clientServer") (c.Int64 "tcpTimeout")
        (c.Int64 "tcpDeadline") (c.Int64 "udpDeadline")] := by
  simp [clientAction, h, Event.isNewClient, List.filter_cons]

theorem clientAction_no_directory_newClient_witness :
    sampleForwardContext.String "clientDirectory" = "" ∧
      (clientAction samplePackage sampleForwardContext).1.filter Event.isNewClient =
        [.NewClient (sampleForwardContext.String "server")
          (sampleForwardContext.String "password") (sampleForwardContext.Int64 "serverPort")
          (sampleForwardContext.String "serverDomain")
          (sampleForwardContext.String "clientServer")
          (sampleForwardContext.Int64 "tcpTimeout") (sampleForwardContext.Int64 "tcpDeadline")
          (sampleForwardContext.Int64 "udpDeadline")] :=
  ⟨by decide, clientAction_no_directory_newClient samplePackage sampleForwardContext (by decide)⟩

/-- C5 (amended): the client command constructs a client for every flag assignment, and the
`serverPort` and `serverDomain` handed to `NewClient` are the flag values, unvalidated; so exactly
one of `serverPort` non-zero and `serverDomain` non-empty holds among the arguments of `NewClient`
if and only if it holds of the flag values. -/
theorem clientAction_binding_mode_unvalidated {Server Client Err : Type}
    (pkg : Package Server Client Err) (c : Context) :
    (∃ cs, (clientAction pkg c).1.filter Event.isNewClient =
        [.NewClient (c.String "server") (c.String "password") (c.Int64 "serverPort")
          (c.String "serverDomain") cs (c.Int64 "tcpTimeout") (c.Int64 "tcpDeadline")
          (c.Int64 "udpDeadline")]) ∧
      ((clientAction pkg c).1.all Event.exactlyOneBindingMode
        = xor (c.Int64 "serverPort" != 0) (c.String "serverDomain" != "")) := by
  constructor
  · by_cases h : c.String "clientDirectory" = ""
    · exact ⟨c.String "clientServer",
        by simp [clientAction, h, Event.isNewClient, List.filter_cons]⟩
    · exact ⟨"localhost:" ++ FormatInt (c.Int64 "clientPort") 10,
        by simp [clientAction, h, Event.isNewClient, List.filter_cons]⟩
  · by_cases h : c.String "clientDirectory" = "" <;>
      simp [clientAction, h, Event.exactlyOneBindingMode]

/-- C5 fails as stated: with no flag given, `NewClient` is called with `serverPort = 0` and an
empty `serverDomain`, and with both flags given it is called with both, so in neither run does
exactly one of the two select the binding mode. -/
theorem clientAction_binding_mode_not_exclusive :
    (clientAction samplePackage { flags := clientFlags, given := [] }).1.filter Event.isNewClient
        = [.NewClient "" "" 0 "" "" 60 0 60] ∧
      (clientAction samplePackage { flags := clientFlags, given := [] }).1.all
        Event.exactlyOneBindingMode = false ∧
      (clientAction samplePackage sampleBothModesContext).1.filter Event.isNewClient
        = [.NewClient "" "" 9000 "www" "" 60 0 60] ∧
      (clientAction samplePackage sampleBothModesContext).1.all
        Event.exactlyOneBindingMode = false := by
  decide

/-- C8: in the client command, when the flags `tcpTimeout`, `tcpDeadline`, `udpDeadline` and
`clientPort` are not given, `NewClient` is called once with `tcpTimeout = 60`, `tcpDeadline = 0`
and `udpDeadline = 60`, and with the forwarding address `"localhost:54321"` when
`clientDirectory` is non-empty (the value of `clientServer` otherwise). -/
theorem clientAction_defaults {Server Client Err : Type}
    (pkg : Package Server Client Err) (given : List (String × FlagValue))
    (h1 : given.lookup "tcpTimeout" = none) (h2 : given.lookup "tcpDeadline" = none)
    (h3 : given.lookup "udpDeadline" = none) (h4 : given.lookup "clientPort" = none) :
    (clientAction pkg { flags := clientFlags, given := given }).1.filter Event.isNewClient =
      [.NewClient (Context.String { flags := clientFlags, given := given } "server")
        (Context.String { flags := clientFlags, given := given } "password")
        (Context.Int64 { flags := clientFlags, given := given } "serverPort")
        (Context.String { flags := clientFlags, given := given } "serverDomain")
        (if Context.String { flags := clientFlags, given := given } "clientDirectory" ≠ "" then
          "localhost:54321"
        else Context.String { flags := clientFlags, given := given } "clientServer")
        60 0 60] := by
  have e1 : Context.Int64 { flags := clientFlags, given := given } "tcpTimeout" = 60 := by
    simp only [Context.Int64, Context.lookup, h1]; decide
  have e2 : Context.Int64 { flags := clientFlags, given := given } "tcpDeadline" = 0 := by
    simp only [Context.Int64, Context.lookup, h2]; decide
  have e3 : Context.Int64 { flags := clientFlags, given := given } "udpDeadline" = 60 := by
    simp only [Context.Int64, Context.lookup, h3]; decide
  have e4 : Context.Int64 { flags := clientFlags, given := given } "clientPort" = 54321 := by
    simp only [Context.Int64, Context.lookup, h4]; decide
  have e5 : FormatInt 54321 10 = "54321" := by decide
  have e6 : "localhost:" ++ "54321" = "localhost:54321" := by decide
  by_cases h : Context.String { flags := clientFlags, given := given } "clientDirectory" = ""
  · simp [clientAction, h, e1, e2, e3, Event.isNewClient, List.filter_cons]
  · simp [clientAction, h, e1, e2, e3, e4, e5, e6, Event.isNewClient, List.filter_cons]

theorem clientAction_defaults_witness :
    (clientAction samplePackage
        { flags := clientFlags, given := [("clientDirectory", .string "/www")] }).1.filter
        Event.isNewClient =
      [.NewClient "" "" 0 "" "localhost:54321" 60 0 60] :=
  (clientAction_defaults samplePackage [("clientDirectory", .string "/www")]
    (by decide) (by decide) (by decide) (by decide)).trans (by decide)

/-! ## The server command -/

/-- C4: in the server command with a non-empty listen address, `NewServer` is called exactly once,
with the values of the flags `listen`, `password` and `portPassword`; the third argument is the
list of `portPassword` values given on the command line, unchanged. -/
theorem serverAction_newServer {Server Client Err : Type}
    (pkg : Package Server Client Err) (g : Globals) (c : Context)
    (h : c.String "listen" ≠ "") :
    (serverAction pkg g c).1.filter Event.isNewServer =
        [.NewServer (c.String "listen") (c.String "password") (c.StringSlice "portPassword")] ∧
      (∀ l, c.given.lookup "portPassword" = some (.stringSlice l) →
        c.StringSlice "portPassword" = l) := by
  constructor
  · unfold serverAction
    rw [if_neg h]
    cases pkg.NewServer (c.String "listen") (c.String "password") (c.StringSlice "portPassword") <;>
      cases g.debug <;> simp [Event.isNewServer, List.filter_cons]
  · intro l hl
    simp [Context.StringSlice, Context.lookup, hl]

theorem serverAction_newServer_witness :
    sampleServerContext.String "listen" ≠ "" ∧
      (serverAction samplePackage ⟨true, "127.0.0.1:6060"⟩ sampleServerContext).1.filter
          Event.isNewServer =
        [.NewServer ":9999" "pw" ["1000 a", "2000 b", "1000 a"]] :=
  ⟨by decide,
    (serverAction_newServer samplePackage ⟨true, "127.0.0.1:6060"⟩ sampleServerContext
      (by decide)).1.trans (by decide)⟩

/-- C9: in the server command, the listen flag is empty if and only if the action shows the
command help and returns nil without calling `NewServer`, without starting the debug HTTP
endpoint and without calling `ListenAndServe`, whatever the other flags and the debug setting. -/
theorem serverAction_help_iff {Server Client Err : Type}
    (pkg : Package Server Client Err) (g : Globals) (c : Context) :
    c.String "listen" = "" ↔
      ((serverAction pkg g c).1 = [.ShowCommandHelp "server"] ∧
        (serverAction pkg g c).2 = none ∧
        (serverAction pkg g c).1.any Event.isNewServer = false ∧
        (serverAction pkg g c).1.any Event.isDebugEndpoint = false ∧
        (serverAction pkg g c).1.any Event.isListenAndServe = false) := by
  constructor
  · intro h
    simp [serverAction, h, Event.isNewServer, Event.isDebugEndpoint, Event.isListenAndServe]
  · intro h
    by_contra hne
    have hcall := h.2.2.1
    unfold serverAction at hcall
    rw [if_neg hne] at hcall
    revert hcall
    cases pkg.NewServer (c.String "listen") (c.String "password") (c.StringSlice "portPassword") <;>
      simp [Event.isNewServer]

/-- C10: in the server command with a non-empty listen address, if `NewServer` returns an error
the action returns that error, calls no `ListenAndServe` and never starts the goroutine that
calls `Shutdown`; if `NewServer` returns a server, the action calls `ListenAndServe` on it and
returns its result. -/
theorem serverAction_result {Server Client Err : Type}
    (pkg : Package Server Client Err) (g : Globals) (c : Context)
    (h : c.String "listen" ≠ "") :
    (∀ err, pkg.NewServer (c.String "listen") (c.String "password")
          (c.StringSlice "portPassword") = .error err →
        (serverAction pkg g c).2 = some err ∧
          (serverAction pkg g c).1.any Event.isListenAndServe = false ∧
          (serverAction pkg g c).1.any Event.installsShutdown = false) ∧
      (∀ s, pkg.NewServer (c.String "listen") (c.String "password")
          (c.StringSlice "portPassword") = .ok s →
        (serverAction pkg g c).2 = pkg.ServerListenAndServe s ∧
          (serverAction pkg g c).1.filter Event.isListenAndServe
            = [.ServerListenAndServe s]) := by
  constructor
  · intro err he
    unfold serverAction
    rw [if_neg h]
    simp only [he]
    cases g.debug <;> simp [Event.isListenAndServe, Event.installsShutdown]
  · intro s hs
    unfold serverAction
    rw [if_neg h]
    simp only [hs]
    cases g.debug <;> simp [Event.isListenAndServe, List.filter_cons]

theorem serverAction_result_witness :
    (sampleBadServerContext.String "listen" ≠ "" ∧
        (serverAction samplePackage ⟨true, "127.0.0.1:6060"⟩ sampleBadServerContext).2
          = some "missing port in address 9999" ∧
        (serverAction samplePackage ⟨true, "127.0.0.1:6060"⟩ sampleBadServerContext).1.any
          Event.isListenAndServe = false ∧
        (serverAction samplePackage ⟨true, "127.0.0.1:6060"⟩ sampleBadServerContext).1.any
          Event.installsShutdown = false) ∧
      (sampleServerContext.String "listen" ≠ "" ∧
        (serverAction samplePackage ⟨false, ""⟩ sampleServerContext).2
          = samplePackage.ServerListenAndServe (":9999", "pw", ["1000 a", "2000 b", "1000 a"]) ∧
        (serverAction samplePackage ⟨false, ""⟩ sampleServerContext).1.filter
            Event.isListenAndServe
          = [.ServerListenAndServe (":9999", "pw", ["1000 a", "2000 b", "1000 a"])]) :=
  ⟨⟨by decide,
      (serverAction_result samplePackage ⟨true, "127.0.0.1:6060"⟩ sampleBadServerContext
        (by decide)).1 "missing port in address 9999" rfl⟩,
    ⟨by decide,
      (serverAction_result samplePackage ⟨false, ""⟩ sampleServerContext
        (by decide)).2 (":9999", "pw", ["1000 a", "2000 b", "1000 a"]) rfl⟩⟩

/-! ## The Port/Password Authority -/

theorem credentialsOk_iff_mem (a : Authority) (p : Int) (w : String) (h : a.entries ≠ []) :
    a.credentialsOk p w = true ↔ ({ port := p, password := w } : PortPasswordEntry) ∈ a.entries := by
  have hne : a.entries.isEmpty = false := by
    cases hE : a.entries with
    | nil => exact absurd hE h
    | cons _ _ => rfl
  simp only [Authority.credentialsOk, hne, Bool.false_eq_true, if_false, List.any_eq_true,
    Bool.and_eq_true, beq_iff_eq]
  constructor
  · rintro ⟨e, he, hp, hw⟩
    cases e
    simp only at hp hw
    subst hp hw
    exact he
  · intro hmem
    exact ⟨_, hmem, rfl, rfl⟩

theorem credentialsOk_password_irrelevant (a : Authority) (pw : String) (p : Int) (w : String)
    (h : a.entries ≠ []) :
    Authority.credentialsOk { a with password := pw } p w = a.credentialsOk p w := by
  have hne : a.entries.isEmpty = false := by
    cases hE : a.entries with
    | nil => exact absurd hE h
    | cons _ _ => rfl
  simp [Authority.credentialsOk, hne]

theorem step_password_irrelevant (a : Authority) (pw : String) (r : AuthorityRequest)
    (h : a.entries ≠ []) :
    (Authority.step { a with password := pw } r).1 = (a.step r).1 ∧
      (Authority.step { a with password := pw } r).2 = { (a.step r).2 with password := pw } ∧
      (a.step r).2.entries = a.entries := by
  cases r with
  | auth p w =>
    simp only [Authority.step, Authorize, credentialsOk_password_irrelevant a pw p w h]
    split <;> simp
  | close p => simp [Authority.step]

theorem run_password_irrelevant (reqs : List AuthorityRequest) :
    ∀ (a : Authority) (pw : String), a.entries ≠ [] →
      Authority.run { a with password := pw } reqs = a.run reqs := by
  induction reqs with
  | nil => intro a pw _; rfl
  | cons r rs ih =>
    intro a pw h
    obtain ⟨h1, h2, h3⟩ := step_password_irrelevant a pw r h
    simp only [Authority.run, h1, h2]
    rw [ih (a.step r).2 pw (by rw [h3]; exact h)]

/-- C6: when at least one `portPassword` entry is configured, the server-wide password is ignored:
two server runs that differ only in the password answer every sequence of authorization requests
(and session closes) alike, and in every state of the authority a request is granted under the
one password exactly when it is granted under the other. -/
theorem authority_ignores_password (pw₁ pw₂ : String) (entries : List PortPasswordEntry)
    (h : entries ≠ []) :
    (∀ reqs, (Authority.start pw₁ entries).run reqs = (Authority.start pw₂ entries).run reqs) ∧
      (∀ bound p w,
        (Authorize { password := pw₁, entries := entries, bound := bound } p w).1 =
          (Authorize { password := pw₂, entries := entries, bound := bound } p w).1) := by
  constructor
  · intro reqs
    have := run_password_irrelevant reqs (Authority.start pw₂ entries) pw₁ h
    simpa [Authority.start] using this
  · intro bound p w
    have := (step_password_irrelevant { password := pw₂, entries := entries, bound := bound }
      pw₁ (.auth p w) h).1
    simpa [Authority.step] using this

theorem authority_ignores_password_witness :
    ([{ port := 8080, password := "secret" }] : List PortPasswordEntry) ≠ [] ∧
      (Authority.start "one" [{ port := 8080, password := "secret" }]).run
          [.auth 8080 "one", .auth 8080 "secret", .auth 8080 "secret", .close 8080,
            .auth 8080 "secret"] =
        (Authority.start "two" [{ port := 8080, password := "secret" }]).run
          [.auth 8080 "one", .auth 8080 "secret", .auth 8080 "secret", .close 8080,
            .auth 8080 "secret"] :=
  ⟨by decide,
    (authority_ignores_password "one" "two" [{ port := 8080, password := "secret" }]
      (by decide)).1 _⟩

/-- C7 (amended): with a non-empty allow-list configured, `Authorize` grants access, and grants
the requested port, if and only if the (port, password) pair is one of the configured entries and
the port is not already bound to an active ControlSession; otherwise it denies. -/
theorem Authorize_grants_iff (a : Authority) (p : Int) (w : String) (h : a.entries ≠ []) :
    ((Authorize a p w).1 = some p ↔
        (({ port := p, password := w } : PortPasswordEntry) ∈ a.entries ∧ p ∉ a.bound)) ∧
      ((Authorize a p w).1 = none ↔
        ¬ (({ port := p, password := w } : PortPasswordEntry) ∈ a.entries ∧ p ∉ a.bound)) := by
  have hc := credentialsOk_iff_mem a p w h
  unfold Authorize
  by_cases hm : ({ port := p, password := w } : PortPasswordEntry) ∈ a.entries
  · have hok : a.credentialsOk p w = true := hc.2 hm
    by_cases hb : p ∈ a.bound <;> simp [hok, hm, hb]
  · have hok : a.credentialsOk p w = false := by
      cases hk : a.credentialsOk p w with
      | false => rfl
      | true => exact absurd (hc.1 hk) hm
    simp [hok, hm]

theorem Authorize_grants_iff_witness :
    scenarioAuthority.entries ≠ [] ∧
      ((Authorize scenarioAuthority 8080 "secret").1 = some 8080 ↔
        (({ port := 8080, password := "secret" } : PortPasswordEntry) ∈ scenarioAuthority.entries ∧
          (8080 : Int) ∉ scenarioAuthority.bound)) :=
  ⟨by decide, (Authorize_grants_iff scenarioAuthority 8080 "secret" (by decide)).1⟩

/-- C7 fails as stated: in the scenario of section 8 the first request for port 8080 with
password `secret` is granted, and the second one, made while the first session is active, is
denied although the pair still exactly matches the configured entry. -/
theorem Authorize_denies_matching_pair_when_bound :
    scenarioAuthority.entries ≠ [] ∧
      (Authorize scenarioAuthority 8080 "secret").1 = some 8080 ∧
      ({ port := 8080, password := "secret" } : PortPasswordEntry) ∈
        (Authorize scenarioAuthority 8080 "secret").2.entries ∧
      (Authorize (Authorize scenarioAuthority 8080 "secret").2 8080 "secret").1 = none := by
  decide

end Mr2
